import Mathlib

/-!
Verification of the RPC dispatch core against its specification.

The development shallowly embeds the two source files:
* `packages/server/src/http.ts` — the HTTP request handler (`requestHandler`),
  the error-envelope builder (`getErrorResponseEnvelope`), the query-input
  decoder (`getQueryInput`) and the `httpError` constructors;
* the `Router` class — an immutable string-keyed endpoint registry with
  `endpoint`, `compose`, `has`.

JavaScript values that flow through the handler are modelled by `JsVal`;
exception values by `HErr`; the observable actions of one request
(registering/deregistering the close listener, arming/clearing the timer,
invoking a procedure, destroying the subscription handle, emitting a response
envelope, running teardown) by an event trace `List Ev`.  External
collaborators (context factory, router invocation, transformer, JSON parser,
and which of the three racing subscription signals fires first) are supplied
as parameters in `Args`, so `requestHandler` is a pure function from a
request scenario to its trace.
-/

/-- A JavaScript value, as far as the handler inspects one: the handler only
ever asks whether a value is falsy, whether it is a string, and carries
everything else around without inspection.  `objVal` stands for any
non-string truthy structured value (arrays and objects from the query
parser). -/
inductive JsVal where
  | undef
  | jsNull
  | str (s : String)
  | num (n : Int)
  | boolVal (b : Bool)
  | objVal (id : Nat)
deriving DecidableEq, Repr

/-- JavaScript truthiness test (`!v` in the source negates this):
`undefined`, `null`, `""`, `0` and `false` are falsy. -/
def isFalsy : JsVal → Bool
  | .undef => true
  | .jsNull => true
  | .str s => s.isEmpty
  | .num n => n == 0
  | .boolVal b => !b
  | .objVal _ => false

/-- A JavaScript exception value as inspected by `getErrorResponseEnvelope`
and the subscription branch: the `instanceof` class tags, and the duck-typed
fields.  `statusCode = some n` models `typeof err.statusCode === 'number'`;
`message`/`stack` likewise model the `typeof ... === 'string'` checks. -/
structure HErr where
  isInputValidation : Bool := false
  isRouteNotFound : Bool := false
  subDestroyReason : Option String := none
  statusCode : Option Int := none
  message : Option String := none
  stack : Option String := none
deriving DecidableEq, Repr

/-- The stack string V8 attaches to a newly constructed `Error`.  The code
never inspects its content, only that it is a string, so a fixed placeholder
is a faithful model. -/
def errorStackPlaceholder : String := "Error"

/-- `new HTTPError(statusCode, message)` from http.ts: an `Error` carrying a
numeric `statusCode`, a string `message` and a (generated) string stack. -/
def newHTTPError (statusCode : Int) (message : String) : HErr :=
  { statusCode := some statusCode
    message := some message
    stack := some errorStackPlaceholder }

/-- `httpError.forbidden(message?)` — `new HTTPError(403, message ?? 'Forbidden')`. -/
def httpError.forbidden (message : Option String) : HErr :=
  newHTTPError 403 (message.getD "Forbidden")

/-- `httpError.unauthorized(message?)` — `new HTTPError(401, message ?? 'Unauthorized')`. -/
def httpError.unauthorized (message : Option String) : HErr :=
  newHTTPError 401 (message.getD "Unauthorized")

/-- `httpError.badRequest(message?)` — `new HTTPError(400, message ?? 'Bad Request')`. -/
def httpError.badRequest (message : Option String) : HErr :=
  newHTTPError 400 (message.getD "Bad Request")

/-- `httpError.notFound(message?)` — `new HTTPError(404, message ?? 'Not found')`. -/
def httpError.notFound (message : Option String) : HErr :=
  newHTTPError 404 (message.getD "Not found")

/-- The `HTTPErrorResponseEnvelope` wire shape:
`{ ok: false, statusCode, error: { message, stack? } }` (error object inlined). -/
structure HTTPErrorResponseEnvelope where
  ok : Bool
  statusCode : Int
  message : String
  stack : Option String
deriving DecidableEq, Repr

/-- `getErrorResponseEnvelope(_err?)` from http.ts, with the process
environment (`process.env.NODE_ENV`) passed explicitly.  `InputValidationError`
is rewrapped as `httpError.badRequest(err.message)`, `RouteNotFoundError` as
`httpError.notFound(err.message)`; then `statusCode`, `message` and `stack`
are read off the (possibly rewrapped, possibly absent) error by duck typing. -/
def getErrorResponseEnvelope (nodeEnv : String) (err? : Option HErr) :
    HTTPErrorResponseEnvelope :=
  let err : Option HErr :=
    match err? with
    | some e =>
      if e.isInputValidation then some (httpError.badRequest e.message)
      else if e.isRouteNotFound then some (httpError.notFound e.message)
      else some e
    | none => none
  { ok := false
    statusCode := (err.bind HErr.statusCode).getD 500
    message := (err.bind HErr.message).getD "Internal Server Error"
    stack := if nodeEnv != "production" then err.bind HErr.stack else none }

/-- `getQueryInput(req)` from http.ts, over `req.query.input` and an abstract
`JSON.parse` oracle (`parse s = none` models a parse exception).  A falsy
`query.input` returns the initial `undefined`; a truthy non-string throws the
fixed bad-request message; a parse failure throws the same fixed message. -/
def getQueryInput (parse : String → Option JsVal) (queryInput : JsVal) :
    Except HErr JsVal :=
  if isFalsy queryInput then .ok .undef
  else
    match queryInput with
    | .str s =>
      match parse s with
      | some v => .ok v
      | none => .error (httpError.badRequest (some "Expected query.input to be a JSON string"))
    | _ => .error (httpError.badRequest (some "Expected query.input to be a JSON string"))

/-- Modelled from the spec: `SubscriptionDestroyError` (subscription.ts is not
among the sources; only its import and uses in http.ts are).  Per the spec's
SubscriptionHandle contract, the handle's wait delivers a termination tagged
with its reason when `destroy(reason)` is requested; http.ts observes it as a
thrown `Error` subclass carrying a `reason` field and no `statusCode`. -/
def subscriptionDestroyError (reason : String) : HErr :=
  { subDestroyReason := some reason
    message := some reason
    stack := some errorStackPlaceholder }

/-- Which of the three racing subscription signals fires first:
the handle produces its terminal output, the client disconnects (`close`),
or the deadline timer fires. -/
inductive SubFirstEvent where
  | output (v : JsVal)
  | close
  | timerFire
deriving DecidableEq, Repr

/-- One response envelope as written to the response:
`{ok: true, statusCode, data}` or `{ok: false, statusCode, error}`. -/
inductive Envelope where
  | success (statusCode : Int) (data : JsVal)
  | failure (e : HTTPErrorResponseEnvelope)
deriving DecidableEq, Repr

/-- The `ok` discriminant of an envelope. -/
def Envelope.ok : Envelope → Bool
  | .success _ _ => true
  | .failure e => e.ok

/-- Observable actions of one `requestHandler` run, in order. -/
inductive Ev where
  /-- `res.status(code).json(json)` — an envelope is written to the response. -/
  | emit (env : Envelope)
  /-- `router.invoke({target, input, ctx, path})` — a procedure is invoked. -/
  | invokeCall (target : String) (input : JsVal)
  /-- `res.once('close', onClose)`. -/
  | onceClose
  /-- `res.off('close', onClose)`. -/
  | offClose
  /-- `setTimeout(..., ms)`. -/
  | setTimer (ms : Nat)
  /-- `clearTimeout(timer)`. -/
  | clearTimer
  /-- `sub.destroy(reason)`. -/
  | destroyCall (reason : String)
  /-- `await teardown()` starts. -/
  | teardownRun
  /-- `console.error('Teardown failed', err)`. -/
  | logTeardownError
deriving DecidableEq, Repr

/-- One request scenario: the request fields `requestHandler` reads, its
configuration, and the behaviour of every injected collaborator. -/
structure Args where
  /-- `req.method` (`undefined` defaults to GET). -/
  method : Option String
  /-- `req.body.input`. -/
  bodyInput : JsVal
  /-- `req.query.input`. -/
  queryInput : JsVal
  /-- `subscriptions?.timeout`. -/
  subTimeout : Option Nat
  /-- teardown hook: `none` = not provided; `some thr` = provided, throws iff `thr`. -/
  teardown : Option Bool
  /-- `process.env.NODE_ENV`. -/
  nodeEnv : String
  /-- `res.statusCode` already assigned by the transport, if any. -/
  resStatusCode : Option Int
  /-- outcome of `await createContext({req, res})`. -/
  createContext : Except HErr Unit
  /-- outcome of `router.invoke({target, input, ctx, path})` as a function of
  target and input (ctx, path and the router itself are fixed per request).
  For `subscriptions` a successful invocation returns the subscription handle;
  the handle itself is opaque, so the payload is unused there. -/
  invoke : String → JsVal → Except HErr JsVal
  /-- which subscription termination signal fires first. -/
  subEvent : SubFirstEvent
  /-- `JSON.parse` oracle used by `getQueryInput`. -/
  parse : String → Option JsVal
  /-- `transformer.serialize` (default identity). -/
  ser : JsVal → JsVal
  /-- `transformer.deserialize` (default identity). -/
  deser : JsVal → JsVal

/-- `deserializeInput(input)` from `requestHandler`:
`input ? transformer.deserialize(input) : input`. -/
def deserializeInput (deser : JsVal → JsVal) (input : JsVal) : JsVal :=
  if isFalsy input then input else deser input

/-- Result of the body of `requestHandler`'s outer `try` block: the events so
far, the value of `output` (or the caught exception), and whether the deadline
timer is still armed when the block exits (the subscription success path never
calls `clearTimeout`). -/
structure CoreOut where
  evs : List Ev
  outcome : Except HErr JsVal
  timerArmed : Bool
deriving Repr

/-- The outer `try` block of `requestHandler`: method dispatch, input
decoding, procedure invocation, and for PATCH the three-way subscription
race exactly as the source sequences it. -/
def requestCore (a : Args) : CoreOut :=
  match a.createContext with
  | .error e => ⟨[], .error e, false⟩
  | .ok _ =>
    let method := a.method.getD "GET"
    if method == "POST" then
      let input := deserializeInput a.deser a.bodyInput
      ⟨[.invokeCall "mutations" input], a.invoke "mutations" input, false⟩
    else if method == "GET" then
      match getQueryInput a.parse a.queryInput with
      | .error e => ⟨[], .error e, false⟩
      | .ok qi =>
        let input := deserializeInput a.deser qi
        ⟨[.invokeCall "queries" input], a.invoke "queries" input, false⟩
    else if method == "PATCH" then
      let input := deserializeInput a.deser a.bodyInput
      match a.invoke "subscriptions" input with
      | .error e => ⟨[.invokeCall "subscriptions" input], .error e, false⟩
      | .ok _ =>
        let timeout := a.subTimeout.getD 9000
        match a.subEvent with
        | .output v =>
          -- output wins: `res.off('close', onClose)` runs, but the timer is
          -- cleared only in the catch branch, so it stays armed here.
          ⟨[.invokeCall "subscriptions" input, .onceClose, .setTimer timeout,
            .offClose], .ok v, true⟩
        | .close =>
          -- close wins: `onClose` destroys the handle with reason 'closed';
          -- the wait rejects; catch removes the listener, clears the timer,
          -- and rethrows (the reason is not 'timeout').
          ⟨[.invokeCall "subscriptions" input, .onceClose, .setTimer timeout,
            .destroyCall "closed", .offClose, .clearTimer],
            .error (subscriptionDestroyError "closed"), false⟩
        | .timerFire =>
          -- timer wins: its callback destroys the handle with reason
          -- 'timeout'; the wait rejects; catch removes the listener, clears
          -- the timer, and throws the 408 HTTPError.
          ⟨[.invokeCall "subscriptions" input, .onceClose, .setTimer timeout,
            .destroyCall "timeout", .offClose, .clearTimer],
            .error (newHTTPError 408
              ("Subscription exceeded " ++ toString timeout ++ "ms - please reconnect.")),
            false⟩
    else
      ⟨[], .error (httpError.badRequest (some ("Unexpected request method " ++ method))), false⟩

/-- `requestHandler` as a trace of observable actions: the outer try/catch
emits exactly one envelope (success envelope with `res.statusCode ?? 200` and
serialized output, or `getErrorResponseEnvelope` of the caught exception);
then the teardown try/catch runs the hook when provided, logging a throwing
hook; a still-armed deadline timer fires afterwards, destroying the handle
with reason 'timeout'. -/
def requestHandler (a : Args) : List Ev :=
  let core := requestCore a
  let envelope : Envelope :=
    match core.outcome with
    | .ok out => .success ((a.resStatusCode).getD 200) (a.ser out)
    | .error e => .failure (getErrorResponseEnvelope a.nodeEnv (some e))
  let teardownEvs : List Ev :=
    match a.teardown with
    | none => []
    | some thr => if thr then [.teardownRun, .logTeardownError] else [.teardownRun]
  let lateEvs : List Ev := if core.timerArmed then [.destroyCall "timeout"] else []
  core.evs ++ Ev.emit envelope :: (teardownEvs ++ lateEvs)

/-- Number of envelopes written to the response in a trace. -/
def emitCount (tr : List Ev) : Nat :=
  tr.countP fun x => match x with | .emit _ => true | _ => false

/-- Number of `sub.destroy(reason)` calls with the given reason in a trace. -/
def destroyCount (reason : String) (tr : List Ev) : Nat :=
  tr.countP fun x => match x with | .destroyCall r => r == reason | _ => false

/-!  The `Router` class: an immutable registry of endpoints.  `_endpoints` is
a JavaScript object, modelled as an association list without duplicate keys
(a JS object cannot hold two entries with the same key); entry order is the
object's insertion order. -/

/-- The `Router` class.  The `TContext` parameter and the endpoint value
types are type-level only; the value-level content is the `_endpoints`
object, holding opaque resolver values of type `V`. -/
structure Router (V : Type) where
  _endpoints : List (String × V)
deriving DecidableEq, Repr

/-- The JS object spread `{...endpoints, ...{[k]: v}}`: when `k` is already a
key (a JS object holds at most one entry per key), its entry is updated in
place keeping its position; otherwise the new entry is appended at the end. -/
def Router.objInsert {V : Type} (e : List (String × V)) (k : String) (v : V) :
    List (String × V) :=
  match e with
  | [] => [(k, v)]
  | kv :: tl => if kv.1 == k then (k, v) :: tl else kv :: Router.objInsert tl k v

/-- `Router.endpoint(path, resolver)`: returns a new router whose endpoints
are `{...this._endpoints, [path]: resolver}`.  No validation of `path`. -/
def Router.endpoint {V : Type} (r : Router V) (path : String) (resolver : V) :
    Router V :=
  ⟨Router.objInsert r._endpoints path resolver⟩

/-- `Router.compose(path, router)`: folds over the child's keys, registering
each entry under `` `${path}/${key}` `` into the receiver. -/
def Router.compose {V : Type} (r : Router V) (path : String) (child : Router V) :
    Router V :=
  child._endpoints.foldl (fun acc kv => acc.endpoint (path ++ "/" ++ kv.1) kv.2) r

/-- Property access `this._endpoints[path]` (`undefined` when absent). -/
def Router.lookup {V : Type} (r : Router V) (path : String) : Option V :=
  (r._endpoints.find? (fun kv => kv.1 == path)).map Prod.snd

/-- `Router.has(path)`: `!!this._endpoints[path]` — resolvers are functions,
hence truthy, so this is key presence. -/
def Router.has {V : Type} (r : Router V) (path : String) : Bool :=
  (r.lookup path).isSome

/-!  Concrete request scenarios used to evaluate `requestHandler`. -/

/-- A GET request with no input, identity transformer, no teardown hook, and
every collaborator succeeding trivially. -/
def baseArgs : Args where
  method := some "GET"
  bodyInput := .undef
  queryInput := .undef
  subTimeout := none
  teardown := none
  nodeEnv := "test"
  resStatusCode := none
  createContext := .ok ()
  invoke := fun _ _ => .ok .undef
  subEvent := .output .undef
  parse := fun _ => none
  ser := fun v => v
  deser := fun v => v

/-- A subscription dispatch whose handle produces its output first
(before disconnect and before the default 9000ms deadline). -/
def outputFirstArgs : Args :=
  { baseArgs with
      method := some "PATCH"
      subEvent := .output (.num 1) }

/-- A subscription dispatch where the client disconnects first. -/
def closeFirstArgs : Args :=
  { baseArgs with
      method := some "PATCH"
      subEvent := .close }

/-- A subscription dispatch with a configured 50ms timeout whose deadline
elapses first. -/
def timerFirstArgs : Args :=
  { baseArgs with
      method := some "PATCH"
      subTimeout := some 50
      subEvent := .timerFire
      teardown := some false }

/-- A request with a teardown hook that throws. -/
def teardownThrowArgs : Args :=
  { baseArgs with teardown := some true }

/-- A POST request whose body has no `input` field. -/
def postNoInputArgs : Args :=
  { baseArgs with method := some "POST" }

/-- An unstructured failure: a plain `Error('boom')` — string message, string
stack, no `statusCode`. -/
def plainBoomError : HErr :=
  { message := some "boom", stack := some errorStackPlaceholder }

/-- A failure whose message is `"a"`, with a stack. -/
def errMsgA : HErr := { message := some "a", stack := some "trace" }

/-- A failure identical to `errMsgA` except for its message text. -/
def errMsgB : HErr := { message := some "b", stack := some "trace" }

/-!  ### Helper lemmas: strings and the object-spread association list -/

/-- `String.append` is associative (via the underlying character data). -/
theorem string_append_assoc (a b c : String) : (a ++ b) ++ c = a ++ (b ++ c) := by
  apply String.ext
  simp [String.data_append, List.append_assoc]

/-- Left cancellation for `String.append`. -/
theorem string_append_left_cancel {p a b : String} (h : p ++ a = p ++ b) : a = b := by
  have hd : (p ++ a).data = (p ++ b).data := congrArg String.data h
  rw [String.data_append, String.data_append] at hd
  exact String.ext (List.append_cancel_left hd)

/-- Prefixing with `p ++ "/"` is injective on paths. -/
theorem slash_path_ne {p a b : String} (h : a ≠ b) : p ++ "/" ++ a ≠ p ++ "/" ++ b := by
  intro hab
  exact h (string_append_left_cancel hab)

/-- Re-associating a doubly prefixed path. -/
theorem slash_path_assoc (p2 p1 k : String) :
    p2 ++ "/" ++ (p1 ++ "/" ++ k) = (p2 ++ "/" ++ p1) ++ "/" ++ k := by
  apply String.ext
  simp [String.data_append, List.append_assoc]

/-- The entry found at key `k` after an object-spread insert of `(k, v)` is
`(k, v)` itself. -/
theorem find?_objInsert_self {V : Type} (e : List (String × V)) (k : String) (v : V) :
    (Router.objInsert e k v).find? (fun kv => kv.1 == k) = some (k, v) := by
  induction e with
  | nil => simp [Router.objInsert, List.find?]
  | cons hd tl ih =>
    by_cases hk : (hd.1 == k) = true
    · simp [Router.objInsert, hk, List.find?]
    · simp only [Bool.not_eq_true] at hk
      simp [Router.objInsert, hk, List.find?, ih]

/-- Object-spread insert at key `k` does not change what is found at `k' ≠ k`. -/
theorem find?_objInsert_ne {V : Type} (e : List (String × V)) (k k' : String) (v : V)
    (h : k' ≠ k) :
    (Router.objInsert e k v).find? (fun kv => kv.1 == k') = e.find? (fun kv => kv.1 == k') := by
  have hb : (k == k') = false := by
    simp only [beq_eq_false_iff_ne, ne_eq]
    exact fun hcon => h hcon.symm
  induction e with
  | nil => simp [Router.objInsert, List.find?, hb]
  | cons hd tl ih =>
    by_cases hk : (hd.1 == k) = true
    · have hh : hd.1 = k := by simpa using hk
      simp [Router.objInsert, hk, List.find?, hb, hh]
    · simp only [Bool.not_eq_true] at hk
      by_cases hd' : (hd.1 == k') = true
      · simp [Router.objInsert, hk, hd', List.find?]
      · simp only [Bool.not_eq_true] at hd'
        simp [Router.objInsert, hk, hd', List.find?, ih]

/-- `endpoint` makes its own path resolve to the given resolver. -/
theorem Router.lookup_endpoint_self {V : Type} (r : Router V) (p : String) (v : V) :
    (r.endpoint p v).lookup p = some v := by
  unfold Router.endpoint Router.lookup
  rw [find?_objInsert_self]
  rfl

/-- `endpoint` leaves every other path's resolution unchanged. -/
theorem Router.lookup_endpoint_ne {V : Type} (r : Router V) (p p' : String) (v : V)
    (h : p' ≠ p) :
    (r.endpoint p v).lookup p' = r.lookup p' := by
  unfold Router.endpoint Router.lookup
  rw [find?_objInsert_ne _ _ _ _ h]

/-- Folding `endpoint` over child entries whose prefixed keys all differ from
`target` leaves the resolution of `target` unchanged. -/
theorem Router.lookup_compose_of_ne {V : Type} (child : List (String × V))
    (r : Router V) (p target : String)
    (h : ∀ kv ∈ child, p ++ "/" ++ kv.1 ≠ target) :
    (r.compose p ⟨child⟩).lookup target = r.lookup target := by
  induction child generalizing r with
  | nil => rfl
  | cons hd tl ih =>
    have hstep : (r.compose p ⟨hd :: tl⟩)
        = ((r.endpoint (p ++ "/" ++ hd.1) hd.2).compose p ⟨tl⟩) := rfl
    rw [hstep, ih _ (fun kv hkv => h kv (List.mem_cons_of_mem hd hkv))]
    exact Router.lookup_endpoint_ne _ _ _ _ fun hcon =>
      h hd (List.mem_cons_self hd tl) hcon.symm

/-- Composing a duplicate-free child under prefix `p` makes `p ++ "/" ++ q`
resolve to whatever the child resolves at `q`. -/
theorem Router.lookup_compose_self {V : Type} (child : List (String × V))
    (r : Router V) (p q : String) (f : V)
    (hnd : (child.map Prod.fst).Nodup)
    (hq : (Router.mk child).lookup q = some f) :
    (r.compose p ⟨child⟩).lookup (p ++ "/" ++ q) = some f := by
  induction child generalizing r with
  | nil => simp [Router.lookup, List.find?] at hq
  | cons hd tl ih =>
    have hstep : (r.compose p ⟨hd :: tl⟩)
        = ((r.endpoint (p ++ "/" ++ hd.1) hd.2).compose p ⟨tl⟩) := rfl
    rw [List.map_cons, List.nodup_cons] at hnd
    by_cases hk : (hd.1 == q) = true
    · have hh : hd.1 = q := by simpa using hk
      have hv : hd.2 = f := by
        have h0 : some hd.2 = some f := by
          simpa [Router.lookup, List.find?, hk] using hq
        exact Option.some.inj h0
      have hfresh : ∀ kv ∈ tl, p ++ "/" ++ kv.1 ≠ p ++ "/" ++ q := by
        intro kv hkv
        apply slash_path_ne
        intro hcon
        apply hnd.1
        rw [hh, ← hcon]
        exact List.mem_map_of_mem Prod.fst hkv
      rw [hstep, Router.lookup_compose_of_ne tl _ p _ hfresh, hh, hv]
      exact Router.lookup_endpoint_self r _ f
    · simp only [Bool.not_eq_true] at hk
      have hq' : (Router.mk tl).lookup q = some f := by
        simpa [Router.lookup, List.find?, hk] using hq
      rw [hstep]
      exact ih _ hnd.2 hq'

/-- Composing a duplicate-free child into an empty router prefixes every
entry in order. -/
theorem Router.compose_empty_eq_map {V : Type} (child : List (String × V)) (p : String)
    (acc : List (String × V))
    (hfresh : ∀ kv ∈ child, acc.find? (fun e0 => e0.1 == p ++ "/" ++ kv.1) = none)
    (hnd : (child.map Prod.fst).Nodup) :
    ((Router.mk acc).compose p ⟨child⟩)._endpoints
      = acc ++ child.map (fun kv => (p ++ "/" ++ kv.1, kv.2)) := by
  induction child generalizing acc with
  | nil => simp [Router.compose]
  | cons hd tl ih =>
    have hstep : ((Router.mk acc).compose p ⟨hd :: tl⟩)
        = (((Router.mk acc).endpoint (p ++ "/" ++ hd.1) hd.2).compose p ⟨tl⟩) := rfl
    have hins : ((Router.mk acc).endpoint (p ++ "/" ++ hd.1) hd.2)
        = Router.mk (acc ++ [(p ++ "/" ++ hd.1, hd.2)]) := by
      have hnone := hfresh hd (List.mem_cons_self hd tl)
      unfold Router.endpoint
      congr 1
      clear hfresh hnd ih hstep
      induction acc with
      | nil => rfl
      | cons a tlacc ihacc =>
        have ha : (a.1 == p ++ "/" ++ hd.1) = false := by
          by_contra hcon
          simp only [Bool.not_eq_false] at hcon
          simp [List.find?, hcon] at hnone
        have htl : tlacc.find? (fun e0 => e0.1 == p ++ "/" ++ hd.1) = none := by
          simpa [List.find?, ha] using hnone
        simp [Router.objInsert, ha, ihacc htl]
    have hfresh' : ∀ kv ∈ tl,
        (acc ++ [(p ++ "/" ++ hd.1, hd.2)]).find?
          (fun e0 => e0.1 == p ++ "/" ++ kv.1) = none := by
      intro kv hkv
      have h1 := hfresh kv (List.mem_cons_of_mem hd hkv)
      have h2 : (p ++ "/" ++ hd.1 == p ++ "/" ++ kv.1) = false := by
        have hne : hd.1 ≠ kv.1 := by
          intro hcon
          rw [List.map_cons, List.nodup_cons] at hnd
          apply hnd.1
          rw [hcon]
          exact List.mem_map_of_mem Prod.fst hkv
        simp only [beq_eq_false_iff_ne, ne_eq]
        exact slash_path_ne hne
      rw [List.find?_append, h1]
      simp [List.find?, h2]
    rw [List.map_cons, List.nodup_cons] at hnd
    rw [hstep, hins, ih _ hfresh' hnd.2]
    simp [List.append_assoc]

/-- Two-step composition collapses to one composition under the concatenated
prefix: the routers are equal, entry for entry. -/
theorem Router.compose_compose {V : Type} (B : Router V) (p2 p1 : String) (A : Router V)
    (hnd : (A._endpoints.map Prod.fst).Nodup) :
    B.compose p2 ((Router.mk []).compose p1 A) = B.compose (p2 ++ "/" ++ p1) A := by
  have h1 : ((Router.mk ([] : List (String × V))).compose p1 A)._endpoints
      = A._endpoints.map (fun kv => (p1 ++ "/" ++ kv.1, kv.2)) := by
    have h0 := Router.compose_empty_eq_map A._endpoints p1 []
      (fun kv _ => rfl) hnd
    simpa using h0
  show (Router.compose B p2 ⟨((Router.mk []).compose p1 A)._endpoints⟩)
      = B.compose (p2 ++ "/" ++ p1) A
  rw [h1]
  unfold Router.compose
  rw [List.foldl_map]
  simp only [slash_path_assoc]

/-- C4: composing a registry `A` under prefix `p` resolves `p ++ "/" ++ q` to
the procedure `A` holds at `q`, for every path registered in `A`; and
composing `A` under `p1` and then the result under `p2` yields the very same
registry as composing `A` under `p2 ++ "/" ++ p1` directly, so nested
composition is associative at arbitrary depth. -/
theorem C4_compose_prefix_and_assoc {V : Type} (B A : Router V)
    (p p1 p2 q : String) (f : V)
    (hnd : (A._endpoints.map Prod.fst).Nodup)
    (hq : A.lookup q = some f) :
    (B.compose p A).lookup (p ++ "/" ++ q) = some f
    ∧ B.compose p2 ((Router.mk []).compose p1 A) = B.compose (p2 ++ "/" ++ p1) A := by
  constructor
  · exact Router.lookup_compose_self A._endpoints B p q f hnd hq
  · exact Router.compose_compose B p2 p1 A hnd

/-- Witness for C4 at a concrete two-entry registry. -/
theorem C4_witness :
    ((([("a", 1), ("b", 2)] : List (String × Nat)).map Prod.fst).Nodup
      ∧ (Router.mk [("a", 1), ("b", 2)]).lookup "a" = some 1)
    ∧ ((Router.mk ([] : List (String × Nat))).compose "pre" (Router.mk [("a", 1), ("b", 2)])).lookup
        ("pre" ++ "/" ++ "a") = some 1
    ∧ (Router.mk ([] : List (String × Nat))).compose "p2"
          ((Router.mk []).compose "p1" (Router.mk [("a", 1), ("b", 2)]))
        = (Router.mk []).compose ("p2" ++ "/" ++ "p1") (Router.mk [("a", 1), ("b", 2)]) := by
  have h := C4_compose_prefix_and_assoc (Router.mk ([] : List (String × Nat)))
    (Router.mk [("a", 1), ("b", 2)]) "pre" "p1" "p2" "a" 1 (by decide) rfl
  exact ⟨⟨by decide, rfl⟩, h.1, h.2⟩

/-- C9 (counterexample): registering under the empty path does not fail — it
produces a registry that resolves the empty path to the registered resolver. -/
theorem C9_counterexample :
    ((Router.mk ([] : List (String × Nat))).endpoint "" 7).lookup "" = some 7 := by
  decide

/-- C9 (amended): `endpoint` performs no validation of `path`: registering a
resolver under the empty path succeeds on every registry and yields a registry
containing an empty-path entry that resolves to it. -/
theorem C9_amended_empty_path_accepted {V : Type} (r : Router V) (f : V) :
    (r.endpoint "" f).lookup "" = some f :=
  Router.lookup_endpoint_self r "" f

/-- C10: duplicate registration is last-write-wins and collision-free:
registering `f` then `g` at the same path `p` — directly, or via composing a
child holding `q` under prefix `pre` with `p = pre ++ "/" ++ q` — yields a
registry resolving `p` to `g`; no error is possible (`endpoint` and `compose`
are total). -/
theorem C10_last_write_wins {V : Type} (e : Router V) (pre q p : String) (f g : V)
    (hp : p = pre ++ "/" ++ q) :
    ((e.endpoint p f).endpoint p g).lookup p = some g
    ∧ ((e.endpoint p f).compose pre (Router.mk [(q, g)])).lookup p = some g := by
  constructor
  · exact Router.lookup_endpoint_self _ p g
  · show ((e.endpoint p f).endpoint (pre ++ "/" ++ q) g).lookup p = some g
    rw [hp]
    exact Router.lookup_endpoint_self _ _ g

/-- Witness for C10 at a concrete path. -/
theorem C10_witness :
    ("x/a" = "x" ++ "/" ++ "a")
    ∧ (((Router.mk ([] : List (String × Nat))).endpoint "x/a" 1).endpoint "x/a" 2).lookup "x/a"
        = some 2
    ∧ (((Router.mk ([] : List (String × Nat))).endpoint "x/a" 1).compose "x"
        (Router.mk [("a", 2)])).lookup "x/a" = some 2 := by
  have h := C10_last_write_wins (Router.mk ([] : List (String × Nat))) "x" "a" "x/a" 1 2 rfl
  exact ⟨rfl, h.1, h.2⟩

/-!  ### The request handler -/

/-- The outer `try` block never writes an envelope and never runs teardown:
those happen only after it finishes. -/
theorem requestCore_evs_clean (a : Args) :
    ∀ x ∈ (requestCore a).evs,
      (∀ e, x ≠ Ev.emit e) ∧ x ≠ Ev.teardownRun ∧ x ≠ Ev.logTeardownError := by
  intro x hx
  unfold requestCore at hx
  split at hx
  · simp at hx
  · dsimp only at hx
    split at hx
    · simp at hx
      subst hx
      simp
    · split at hx
      · split at hx
        · simp at hx
        · simp at hx
          subst hx
          simp
      · split at hx
        · split at hx
          · simp at hx
            subst hx
            simp
          · split at hx <;> simp at hx <;> rcases hx with rfl | rfl | rfl | rfl | rfl | rfl <;> simp
        · simp at hx

/-- C5: in every request, whatever branch ran, the trace decomposes as
events of the try block (none of which emit or tear down), then exactly one
envelope emission, then the teardown phase: the hook runs exactly once when
provided (never otherwise), a throwing hook is logged, and nothing after the
emission writes another envelope — teardown can neither alter nor replace
the already-sent envelope, and the handler itself always returns. -/
theorem C5_teardown_exactly_once (a : Args) :
    ∃ pre env post,
      requestHandler a = pre ++ Ev.emit env :: post
      ∧ (∀ x ∈ pre, (∀ e2, x ≠ Ev.emit e2) ∧ x ≠ Ev.teardownRun)
      ∧ post.count Ev.teardownRun = (if a.teardown.isSome then 1 else 0)
      ∧ (∀ e2, Ev.emit e2 ∉ post)
      ∧ (a.teardown = some true → Ev.logTeardownError ∈ post) := by
  refine ⟨(requestCore a).evs, _, _, rfl, ?_, ?_, ?_, ?_⟩
  · intro x hx
    have h := requestCore_evs_clean a x hx
    exact ⟨h.1, h.2.1⟩
  · cases h : a.teardown with
    | none => cases (requestCore a).timerArmed <;> simp [h]
    | some thr =>
      cases thr <;> cases (requestCore a).timerArmed <;> simp [h, List.count_cons]
  · intro e2 hmem
    cases h : a.teardown with
    | none =>
      rw [h] at hmem
      cases (requestCore a).timerArmed <;> simp_all
    | some thr =>
      rw [h] at hmem
      cases thr <;> cases (requestCore a).timerArmed <;> simp_all
  · intro h
    rw [h]
    cases (requestCore a).timerArmed <;> simp

/-- Witness for C5: a request whose teardown hook throws. -/
theorem C5_witness :
    ∃ pre env post,
      requestHandler teardownThrowArgs = pre ++ Ev.emit env :: post
      ∧ (∀ x ∈ pre, (∀ e2, x ≠ Ev.emit e2) ∧ x ≠ Ev.teardownRun)
      ∧ post.count Ev.teardownRun = (if teardownThrowArgs.teardown.isSome then 1 else 0)
      ∧ (∀ e2, Ev.emit e2 ∉ post)
      ∧ (teardownThrowArgs.teardown = some true → Ev.logTeardownError ∈ post) :=
  C5_teardown_exactly_once teardownThrowArgs

/-- C1: evaluation at the failing input — a subscription dispatch whose
handle produces its output first.  The claim (and the spec) require the
deadline timer to be cancelled on every exit path including the success path;
the code calls `clearTimeout` only in the catch branch, so on the success
path the trace contains no `clearTimer`, and the still-armed timer later
fires `sub.destroy('timeout')` after the success envelope has been sent. -/
theorem C1_success_path_leaves_timer_armed :
    requestHandler outputFirstArgs =
      [Ev.invokeCall "subscriptions" JsVal.undef, Ev.onceClose, Ev.setTimer 9000,
       Ev.offClose, Ev.emit (Envelope.success 200 (JsVal.num 1)),
       Ev.destroyCall "timeout"]
    ∧ Ev.clearTimer ∉ requestHandler outputFirstArgs
    ∧ destroyCount "timeout" (requestHandler outputFirstArgs) = 1 := by
  refine ⟨rfl, by decide, rfl⟩

/-- C2 (counterexample): a subscription dispatch where the client disconnects
first.  The claim says no response envelope is emitted; the code rethrows the
`closed` termination, and the top-level catch emits exactly one (failure)
envelope. -/
theorem C2_close_emits_envelope :
    emitCount (requestHandler closeFirstArgs) = 1
    ∧ Ev.destroyCall "closed" ∈ requestHandler closeFirstArgs := by
  refine ⟨rfl, by decide⟩

/-- C2 (amended): when the disconnect signal fires before output and
deadline, the handle is told to terminate with reason `closed` exactly once,
the close listener is removed and the timer cleared, no timeout destroy ever
fires, and no success envelope is written — but the termination error
propagates to the top-level catch, which emits a failure envelope (statusCode
500, as the termination error carries no status code) to the already-closed
connection. -/
theorem C2_amended_close_behaviour (a : Args) (s : JsVal)
    (hc : a.createContext = .ok ())
    (hm : a.method = some "PATCH")
    (hs : a.invoke "subscriptions" (deserializeInput a.deser a.bodyInput) = .ok s)
    (he : a.subEvent = .close) :
    destroyCount "closed" (requestHandler a) = 1
    ∧ destroyCount "timeout" (requestHandler a) = 0
    ∧ Ev.offClose ∈ requestHandler a
    ∧ Ev.clearTimer ∈ requestHandler a
    ∧ Ev.emit (.failure (getErrorResponseEnvelope a.nodeEnv
        (some (subscriptionDestroyError "closed")))) ∈ requestHandler a
    ∧ (getErrorResponseEnvelope a.nodeEnv (some (subscriptionDestroyError "closed"))).statusCode
        = 500
    ∧ (∀ sc d, Ev.emit (Envelope.success sc d) ∉ requestHandler a) := by
  have hcore : requestCore a =
      ⟨[.invokeCall "subscriptions" (deserializeInput a.deser a.bodyInput),
        .onceClose, .setTimer (a.subTimeout.getD 9000),
        .destroyCall "closed", .offClose, .clearTimer],
        .error (subscriptionDestroyError "closed"), false⟩ := by
    unfold requestCore
    rw [hc, hm]
    simp only [hs, he]
    rfl
  have htr : requestHandler a =
      [.invokeCall "subscriptions" (deserializeInput a.deser a.bodyInput),
        .onceClose, .setTimer (a.subTimeout.getD 9000),
        .destroyCall "closed", .offClose, .clearTimer]
      ++ Ev.emit (.failure (getErrorResponseEnvelope a.nodeEnv
          (some (subscriptionDestroyError "closed"))))
        :: ((match a.teardown with
              | none => []
              | some thr => if thr then [Ev.teardownRun, Ev.logTeardownError]
                  else [Ev.teardownRun]) ++ []) := by
    unfold requestHandler
    rw [hcore]
    rfl
  rw [htr]
  refine ⟨?_, ?_, ?_, ?_, ?_, rfl, ?_⟩
  · cases h : a.teardown with
    | none => simp [destroyCount, List.countP_cons]
    | some thr => cases thr <;> simp [destroyCount, List.countP_cons]
  · cases h : a.teardown with
    | none => simp [destroyCount, List.countP_cons]
    | some thr => cases thr <;> simp [destroyCount, List.countP_cons]
  · simp
  · simp
  · simp
  · intro sc d
    cases h : a.teardown with
    | none => simp
    | some thr => cases thr <;> simp

/-- Witness for C2 (amended) at the concrete disconnect-first scenario. -/
theorem C2_amended_witness :
    destroyCount "closed" (requestHandler closeFirstArgs) = 1
    ∧ destroyCount "timeout" (requestHandler closeFirstArgs) = 0
    ∧ Ev.offClose ∈ requestHandler closeFirstArgs
    ∧ Ev.clearTimer ∈ requestHandler closeFirstArgs
    ∧ Ev.emit (.failure (getErrorResponseEnvelope closeFirstArgs.nodeEnv
        (some (subscriptionDestroyError "closed")))) ∈ requestHandler closeFirstArgs
    ∧ (getErrorResponseEnvelope closeFirstArgs.nodeEnv
        (some (subscriptionDestroyError "closed"))).statusCode = 500
    ∧ (∀ sc d, Ev.emit (Envelope.success sc d) ∉ requestHandler closeFirstArgs) :=
  C2_amended_close_behaviour closeFirstArgs .undef rfl rfl rfl rfl

/-- C3: when the deadline elapses first, the handle is destroyed with reason
`timeout` exactly once, and the emitted envelope is a failure with statusCode
408 and message `Subscription exceeded <N>ms - please reconnect.`, where `N`
is the configured timeout in milliseconds, defaulting to 9000 when none is
configured (`subscriptions?.timeout ?? 9000`). -/
theorem C3_timeout_envelope (a : Args) (s : JsVal)
    (hc : a.createContext = .ok ())
    (hm : a.method = some "PATCH")
    (hs : a.invoke "subscriptions" (deserializeInput a.deser a.bodyInput) = .ok s)
    (he : a.subEvent = .timerFire) :
    destroyCount "timeout" (requestHandler a) = 1
    ∧ Ev.emit (.failure
        { ok := false
          statusCode := 408
          message := "Subscription exceeded " ++ toString (a.subTimeout.getD 9000)
            ++ "ms - please reconnect."
          stack := if a.nodeEnv != "production" then some errorStackPlaceholder
            else none }) ∈ requestHandler a := by
  have hcore : requestCore a =
      ⟨[.invokeCall "subscriptions" (deserializeInput a.deser a.bodyInput),
        .onceClose, .setTimer (a.subTimeout.getD 9000),
        .destroyCall "timeout", .offClose, .clearTimer],
        .error (newHTTPError 408 ("Subscription exceeded "
          ++ toString (a.subTimeout.getD 9000) ++ "ms - please reconnect.")),
        false⟩ := by
    unfold requestCore
    rw [hc, hm]
    simp only [hs, he]
    rfl
  have htr : requestHandler a =
      [.invokeCall "subscriptions" (deserializeInput a.deser a.bodyInput),
        .onceClose, .setTimer (a.subTimeout.getD 9000),
        .destroyCall "timeout", .offClose, .clearTimer]
      ++ Ev.emit (.failure
          { ok := false
            statusCode := 408
            message := "Subscription exceeded " ++ toString (a.subTimeout.getD 9000)
              ++ "ms - please reconnect."
            stack := if a.nodeEnv != "production" then some errorStackPlaceholder
              else none })
        :: ((match a.teardown with
              | none => []
              | some thr => if thr then [Ev.teardownRun, Ev.logTeardownError]
                  else [Ev.teardownRun]) ++ []) := by
    unfold requestHandler
    rw [hcore]
    rfl
  rw [htr]
  constructor
  · cases h : a.teardown with
    | none => simp [destroyCount, List.countP_cons]
    | some thr => cases thr <;> simp [destroyCount, List.countP_cons]
  · simp

/-- Witness for C3 at the concrete scenario with a configured 50ms timeout. -/
theorem C3_witness :
    destroyCount "timeout" (requestHandler timerFirstArgs) = 1
    ∧ Ev.emit (.failure
        { ok := false
          statusCode := 408
          message := "Subscription exceeded " ++ toString (timerFirstArgs.subTimeout.getD 9000)
            ++ "ms - please reconnect."
          stack := if timerFirstArgs.nodeEnv != "production" then some errorStackPlaceholder
            else none }) ∈ requestHandler timerFirstArgs :=
  C3_timeout_envelope timerFirstArgs .undef rfl rfl rfl rfl

/-- C6 (counterexample): a plain `Error('boom')` — string message, no numeric
statusCode — is "any other failure" in the claim's taxonomy, so the claim
requires message `Internal Server Error`; the builder instead keeps `boom`
(defaulting only the statusCode). -/
theorem C6_counterexample :
    (getErrorResponseEnvelope "test" (some plainBoomError)).statusCode = 500
    ∧ (getErrorResponseEnvelope "test" (some plainBoomError)).message = "boom"
    ∧ (getErrorResponseEnvelope "test" (some plainBoomError)).message
        ≠ "Internal Server Error" := by
  refine ⟨rfl, rfl, by decide⟩

/-- C6 (amended): the builder is total and always yields `ok: false`; an
input-validation failure maps to 400 (with its own message), a
route-not-found failure to 404, and for every other failure the statusCode
and message default independently: statusCode is the failure's own when
numeric and 500 otherwise, message is the failure's own when a string and
`Internal Server Error` otherwise — a failure with a string message but no
numeric statusCode yields 500 paired with its own message. -/
theorem C6_amended_envelope_builder (nodeEnv : String) (err? : Option HErr) :
    (getErrorResponseEnvelope nodeEnv err?).ok = false
    ∧ (getErrorResponseEnvelope nodeEnv err?).statusCode =
        (match err? with
          | none => 500
          | some e =>
            if e.isInputValidation then 400
            else if e.isRouteNotFound then 404
            else e.statusCode.getD 500)
    ∧ (getErrorResponseEnvelope nodeEnv err?).message =
        (match err? with
          | none => "Internal Server Error"
          | some e =>
            if e.isInputValidation then e.message.getD "Bad Request"
            else if e.isRouteNotFound then e.message.getD "Not found"
            else e.message.getD "Internal Server Error") := by
  rcases err? with _ | e
  · exact ⟨rfl, rfl, rfl⟩
  · by_cases h1 : e.isInputValidation <;> by_cases h2 : e.isRouteNotFound <;>
      simp [getErrorResponseEnvelope, httpError.badRequest, httpError.notFound,
        newHTTPError, h1, h2]

/-- C7 (counterexample): under production configuration, two failures that
differ only in their message text yield envelopes with the same statusCode
but different bodies — the original message is exposed even in production,
so the envelope is not normalized to a generic string. -/
theorem C7_counterexample :
    (getErrorResponseEnvelope "production" (some errMsgA)).statusCode
        = (getErrorResponseEnvelope "production" (some errMsgB)).statusCode
    ∧ (getErrorResponseEnvelope "production" (some errMsgA)).stack = none
    ∧ getErrorResponseEnvelope "production" (some errMsgA)
        ≠ getErrorResponseEnvelope "production" (some errMsgB) := by
  refine ⟨rfl, rfl, by decide⟩

/-- C7 (amended): only the stack is gated by production configuration: in
production the stack is always omitted and two failures differing only in
their stack produce identical envelopes, while outside production the stack
is passed through; the message is passed through verbatim in every
configuration (never normalized). -/
theorem C7_amended_stack_gating (e : HErr) (s : Option String) (env : String)
    (hv : e.isInputValidation = false) (hn : e.isRouteNotFound = false)
    (hp : env ≠ "production") :
    getErrorResponseEnvelope "production" (some { e with stack := s })
      = getErrorResponseEnvelope "production" (some e)
    ∧ (getErrorResponseEnvelope "production" (some e)).stack = none
    ∧ (getErrorResponseEnvelope env (some e)).stack = e.stack
    ∧ (getErrorResponseEnvelope env (some e)).message = e.message.getD "Internal Server Error" := by
  have hbne : (env != "production") = true := by
    simpa [bne_iff_ne] using hp
  refine ⟨?_, ?_, ?_, ?_⟩ <;>
    simp [getErrorResponseEnvelope, hv, hn, hbne]

/-- Witness for C7 (amended) at concrete failures and environment. -/
theorem C7_witness :
    (errMsgA.isInputValidation = false ∧ errMsgA.isRouteNotFound = false
      ∧ "development" ≠ "production")
    ∧ (getErrorResponseEnvelope "production" (some { errMsgA with stack := none })
        = getErrorResponseEnvelope "production" (some errMsgA)
      ∧ (getErrorResponseEnvelope "production" (some errMsgA)).stack = none
      ∧ (getErrorResponseEnvelope "development" (some errMsgA)).stack = errMsgA.stack
      ∧ (getErrorResponseEnvelope "development" (some errMsgA)).message
          = errMsgA.message.getD "Internal Server Error") :=
  ⟨⟨rfl, rfl, by decide⟩,
    C7_amended_stack_gating errMsgA none "development" rfl rfl (by decide)⟩

/-- C8 (counterexample): an empty-string `query.input` is present and — per
the parse oracle — not parseable as JSON, so the claim requires a 400
failure; the code's falsiness check (`if (!queryInput)`) fires first and the
decoder returns `undefined` without error. -/
theorem C8_counterexample :
    ((fun (_ : String) => (none : Option JsVal)) "" = (none : Option JsVal))
    ∧ getQueryInput (fun _ => none) (.str "") = .ok .undef := by
  exact ⟨rfl, rfl⟩

/-- C8 (amended): absence of payload (missing `query.input` for a read, or a
missing body `input` for a write) yields `undefined` input passed to the
procedure, never an error; an empty-string `query.input` is likewise treated
as absence and yields `undefined`; a present truthy non-string `query.input`,
or a present non-empty string failing to parse as JSON, yields a 400 failure
whose message is the fixed `Expected query.input to be a JSON string`,
independent of the parse error. -/
theorem C8_amended_input_decoding (p : String → Option JsVal) (s : String) (k : Nat)
    (a b : Args)
    (hs : s ≠ "") (hp : p s = none)
    (hca : a.createContext = .ok ()) (hma : a.method = some "GET")
    (hqa : a.queryInput = .undef)
    (hcb : b.createContext = .ok ()) (hmb : b.method = some "POST")
    (hbb : b.bodyInput = .undef) :
    getQueryInput p .undef = .ok .undef
    ∧ getQueryInput p (.str "") = .ok .undef
    ∧ getQueryInput p (.objVal k)
        = .error (newHTTPError 400 "Expected query.input to be a JSON string")
    ∧ getQueryInput p (.str s)
        = .error (newHTTPError 400 "Expected query.input to be a JSON string")
    ∧ Ev.invokeCall "queries" .undef ∈ requestHandler a
    ∧ Ev.invokeCall "mutations" .undef ∈ requestHandler b := by
  refine ⟨rfl, rfl, rfl, ?_, ?_, ?_⟩
  · have hempty : s.isEmpty = false := by
      cases hcon : s.isEmpty
      · rfl
      · exact absurd ((String.isEmpty_iff s).mp hcon) hs
    simp [getQueryInput, isFalsy, hempty, hp, httpError.badRequest]
  · have hcore : requestCore a =
        ⟨[.invokeCall "queries" .undef], a.invoke "queries" .undef, false⟩ := by
      unfold requestCore
      rw [hca, hma, hqa]
      rfl
    unfold requestHandler
    rw [hcore]
    cases h : a.invoke "queries" JsVal.undef <;> simp
  · have hcore : requestCore b =
        ⟨[.invokeCall "mutations" .undef], b.invoke "mutations" .undef, false⟩ := by
      unfold requestCore
      rw [hcb, hmb, hbb]
      rfl
    unfold requestHandler
    rw [hcore]
    cases h : b.invoke "mutations" JsVal.undef <;> simp

/-- Witness for C8 (amended) at a concrete oracle, string and requests. -/
theorem C8_witness :
    ("x" ≠ "" ∧ (fun (_ : String) => (none : Option JsVal)) "x" = none
      ∧ baseArgs.method = some "GET" ∧ postNoInputArgs.method = some "POST")
    ∧ (getQueryInput (fun _ => none) .undef = .ok .undef
      ∧ getQueryInput (fun _ => none) (.str "") = .ok .undef
      ∧ getQueryInput (fun _ => none) (.objVal 0)
          = .error (newHTTPError 400 "Expected query.input to be a JSON string")
      ∧ getQueryInput (fun _ => none) (.str "x")
          = .error (newHTTPError 400 "Expected query.input to be a JSON string")
      ∧ Ev.invokeCall "queries" .undef ∈ requestHandler baseArgs
      ∧ Ev.invokeCall "mutations" .undef ∈ requestHandler postNoInputArgs) :=
  ⟨⟨by decide, rfl, rfl, rfl⟩,
    C8_amended_input_decoding (fun _ => none) "x" 0 baseArgs postNoInputArgs
      (by decide) rfl rfl rfl rfl rfl rfl rfl⟩
